import Mathlib

/-!
# AuditLens — verification of the configuration, ingestion client and dashboard

Shallow embedding of the AuditLens repository (Python):
* `config/settings.py` — project-wide constants;
* `src/ingest/secop_client.py` — SECOP II API client (`fetch_page`,
  `clean_dataframe`, `pull_data`);
* `dashboard/app.py` — Streamlit dashboard over the precomputed
  `risk_scores.parquet` output (`apply_filters`, the tab-3 mask, the set of
  columns read).

Python floats holding the small decimal configuration constants are embedded
as rationals (`ℚ`); dataframes are lists of records; fallible parsing
(`pd.to_numeric(errors="coerce")`, `pd.to_datetime(errors="coerce")`) is
embedded as `Option`-valued parse functions.
-/

namespace AuditLens

/-! ## config/settings.py -/

/-- `API_PAGE_SIZE = 50_000` from `config/settings.py`. -/
def API_PAGE_SIZE : Nat := 50000

/-- `TRAIN_START = "2019-01-01"` from `config/settings.py`. -/
def TRAIN_START : String := "2019-01-01"

/-- `VALID_END = "2022-08-06"` from `config/settings.py`. -/
def VALID_END : String := "2022-08-06"

/-- `SMMLV` year → amount threshold table from `config/settings.py`
(Colombian minimum wage by year). -/
def SMMLV : List (Nat × ℚ) :=
  [(2019, 828116), (2020, 877803), (2021, 908526),
   (2022, 1000000), (2023, 1160000)]

/-- `WEIGHT_PROCESS_ANOMALY = 0.55` from `config/settings.py`. -/
def WEIGHT_PROCESS_ANOMALY : ℚ := 0.55

/-- `WEIGHT_SPLITTING = 0.25` from `config/settings.py`. -/
def WEIGHT_SPLITTING : ℚ := 0.25

/-- `WEIGHT_NETWORK = 0.10` from `config/settings.py`. -/
def WEIGHT_NETWORK : ℚ := 0.10

/-- `WEIGHT_COMMUNITY = 0.10` from `config/settings.py`. -/
def WEIGHT_COMMUNITY : ℚ := 0.10

/-- `TIER_LOW = 0.3` from `config/settings.py`. -/
def TIER_LOW : ℚ := 0.3

/-- `TIER_HIGH = 0.6` from `config/settings.py`. -/
def TIER_HIGH : ℚ := 0.6

/-- `SPLITTING_WINDOWS_DAYS = [30, 60, 90]` from `config/settings.py`. -/
def SPLITTING_WINDOWS_DAYS : List Nat := [30, 60, 90]

/-- `THRESHOLD_PROXIMITY_PCT = 0.10` from `config/settings.py`. -/
def THRESHOLD_PROXIMITY_PCT : ℚ := 0.10

/-- `RANDOM_STATE = 42` from `config/settings.py`. -/
def RANDOM_STATE : Nat := 42

/-! ## Risk tiers -/

/-- The discrete risk tier of a contract. -/
inductive RiskTier where
  | Low
  | Medium
  | High
deriving DecidableEq, Repr

/-- Modelled from the spec: the tiering step of the Score Combiner &
Calibrator is not under `src/` (only its configuration `TIER_LOW`,
`TIER_HIGH` is).  Per §4.5 step 3, the tier is
「High if score in high band else Medium if in medium band else Low」,
with the high band reaching down to the `TIER_HIGH` cut point and the
medium band down to the `TIER_LOW` cut point. -/
def risk_tier (s : ℚ) : RiskTier :=
  if TIER_HIGH ≤ s then RiskTier.High
  else if TIER_LOW ≤ s then RiskTier.Medium
  else RiskTier.Low

/-! ## src/ingest/secop_client.py — data model -/

/-- A calendar date, as parsed by `pd.to_datetime` from the ISO strings of
the SECOP II API. -/
structure Date where
  year : Nat
  month : Nat
  day : Nat
deriving DecidableEq, Repr

/-- Lexicographic (chronological) order on dates, as used by the API-side
comparison in the `$where` clause of `fetch_page`. -/
def dateLe (a b : Date) : Bool :=
  decide (a.year < b.year) ||
    (decide (a.year = b.year) &&
      (decide (a.month < b.month) ||
        (decide (a.month = b.month) && decide (a.day ≤ b.day))))

/-- One raw record as returned by the API (JSON object of strings), restricted
to the fields `clean_dataframe` touches; the remaining `$select` columns are
plain string columns that only get whitespace-stripped. -/
structure RawRow where
  id_contrato : String
  valor_del_contrato : String
  dias_adicionados : String
  fecha_de_firma : String
  fecha_de_inicio_del_contrato : String
  fecha_de_fin_del_contrato : String
deriving DecidableEq, Repr

/-- One record after `clean_dataframe` applied its type conversions: numeric
and datetime cells are value-or-NaN (`Option`), `dias_adicionados` has had
`fillna(0)` applied, string cells are stripped. -/
structure ParsedRow where
  id_contrato : String
  valor_del_contrato : Option ℚ
  dias_adicionados : ℚ
  fecha_de_firma : Option Date
  fecha_de_inicio_del_contrato : Option Date
  fecha_de_fin_del_contrato : Option Date
deriving DecidableEq, Repr

/-- Whitespace-strip at both ends of a string (`pandas.Series.str.strip`
with no argument strips whitespace). -/
def stripStr (s : String) : String :=
  ⟨((s.toList.dropWhile Char.isWhitespace).reverse.dropWhile
      Char.isWhitespace).reverse⟩

/-- The per-row effect of the conversion steps of `clean_dataframe`:
`pd.to_numeric(..., errors="coerce")` on `valor_del_contrato`,
`pd.to_numeric(...).fillna(0)` on `dias_adicionados`,
`pd.to_datetime(..., errors="coerce")` on the three `DATE_COLS`, and
`.str.strip()` on the remaining object (string) columns.  The parsers
`toNum` and `toDate` stand for pandas' coercing conversions. -/
def parseRow (toNum : String → Option ℚ) (toDate : String → Option Date)
    (r : RawRow) : ParsedRow :=
  { id_contrato := stripStr r.id_contrato
    valor_del_contrato := toNum r.valor_del_contrato
    dias_adicionados := (toNum r.dias_adicionados).getD 0
    fecha_de_firma := toDate r.fecha_de_firma
    fecha_de_inicio_del_contrato := toDate r.fecha_de_inicio_del_contrato
    fecha_de_fin_del_contrato := toDate r.fecha_de_fin_del_contrato }

/-- `clean_dataframe` from `src/ingest/secop_client.py`: convert types,
drop rows with null `valor_del_contrato` or null
`fecha_de_inicio_del_contrato`, then drop rows with non-positive value
(`df[df["valor_del_contrato"] > 0]`).  The final `reset_index(drop=True)`
is the identity on the row list. -/
def clean_dataframe (toNum : String → Option ℚ) (toDate : String → Option Date)
    (df : List RawRow) : List ParsedRow :=
  ((df.map (parseRow toNum toDate)).filter
      (fun r => r.valor_del_contrato.isSome &&
        r.fecha_de_inicio_del_contrato.isSome)).filter
    (fun r => decide (0 < r.valor_del_contrato.getD 0))

/-- Split a character list on a separator character. -/
def splitOnChar (c : Char) : List Char → List (List Char)
  | [] => [[]]
  | x :: xs =>
    match splitOnChar c xs, decide (x = c) with
    | r, true => [] :: r
    | [], false => [[x]]
    | y :: ys, false => (x :: y) :: ys

/-- Read a decimal digit. -/
def digitVal? (c : Char) : Option Nat :=
  if c.isDigit then some (c.toNat - 48) else none

/-- Accumulate decimal digits into a natural number; `none` on any
non-digit. -/
def digitsAux : List Char → Nat → Option Nat
  | [], acc => some acc
  | c :: cs, acc =>
    match digitVal? c with
    | some d => digitsAux cs (acc * 10 + d)
    | none => none

/-- Parse a non-empty all-digit character list as a natural number. -/
def digitsToNat? : List Char → Option Nat
  | [] => none
  | cs => digitsAux cs 0

/-- Concrete numeric parser used to instantiate `toNum` on concrete inputs:
decimal natural-number strings, the shape the API's numeric cells take in the
examples below. -/
def parseNum (s : String) : Option ℚ :=
  (digitsToNat? s.toList).map (fun n => (n : ℚ))

/-- Concrete date parser used to instantiate `toDate` on concrete inputs:
ISO `YYYY-MM-DD` strings. -/
def parseDate (s : String) : Option Date :=
  match splitOnChar (Char.ofNat 45) s.toList with
  | [y, m, d] =>
    match digitsToNat? y, digitsToNat? m, digitsToNat? d with
    | some y, some m, some d => some ⟨y, m, d⟩
    | _, _, _ => none
  | _ => none

/-- The date constraint of the `$where` clause of `fetch_page`:
`fecha_de_inicio_del_contrato >= TRAIN_START T00:00:00 AND
fecha_de_inicio_del_contrato <= VALID_END T23:59:59` (at day granularity the
two timestamps bound exactly the closed day interval); the clause also
requires `valor_del_contrato > '0'`, which does not involve the date. -/
def fetchWhereDate (d : Date) : Bool :=
  dateLe ((parseDate TRAIN_START).getD ⟨0, 0, 0⟩) d &&
    dateLe d ((parseDate VALID_END).getD ⟨0, 0, 0⟩)

/-! ## src/ingest/secop_client.py — pull_data -/

/-- The fetch loop of `pull_data`.  `pages offset limit` stands for
`fetch_page(offset, limit)` (its JSON row list); `maxRows` is the optional
`max_rows` argument.  State: current `offset`, `total_fetched`, and the
accumulated `chunks` (flattened, as `pd.concat` flattens them).  Each
iteration computes `limit = min(API_PAGE_SIZE, max_rows - total_fetched)`
(Python integers, hence `Int`), breaks when `limit <= 0`, breaks on an
empty batch, appends the batch, and breaks after appending when
`len(batch) < limit` (last page).  `fuel` bounds the number of iterations;
the theorems hold for every fuel. -/
def pullLoop (pages : Nat → Nat → List RawRow) (maxRows : Option Nat) :
    Nat → Nat → Nat → List RawRow → List RawRow × Nat
  | 0, _, total, acc => (acc, total)
  | fuel + 1, offset, total, acc =>
    let limit : Int :=
      match maxRows with
      | none => (API_PAGE_SIZE : Int)
      | some m => min (API_PAGE_SIZE : Int) ((m : Int) - (total : Int))
    if limit ≤ 0 then (acc, total)
    else
      let batch := pages offset limit.toNat
      if batch = [] then (acc, total)
      else if batch.length < limit.toNat then (acc ++ batch, total + batch.length)
      else
        pullLoop pages maxRows fuel (offset + batch.length)
          (total + batch.length) (acc ++ batch)

/-- `pull_data` from `src/ingest/secop_client.py`: run the fetch loop from
`offset = 0`, `total_fetched = 0`, empty `chunks`; return `None` when no
data was fetched, otherwise the cleaned concatenation of the chunks (the
dataframe then saved to the output Parquet file). -/
def pull_data (pages : Nat → Nat → List RawRow)
    (toNum : String → Option ℚ) (toDate : String → Option Date)
    (maxRows : Option Nat) (fuel : Nat) : Option (List ParsedRow) :=
  let r := pullLoop pages maxRows fuel 0 0 []
  if r.1 = [] then none else some (clean_dataframe toNum toDate r.1)

/-- A fixed raw row used on concrete instances below. -/
def rowA : RawRow :=
  ⟨"A1", "5000", "0", "2020-01-01", "2020-01-03", "2020-02-01"⟩

/-- A second fixed raw row with a different contract id. -/
def rowB : RawRow :=
  ⟨"B2", "7000", "0", "2020-01-02", "2020-01-04", "2020-02-02"⟩

/-- A page function whose single page holds the same contract twice: the
API is free to return duplicate records, and nothing downstream removes
them. -/
def dupPages : Nat → Nat → List RawRow :=
  fun offset limit => (if offset = 0 then [rowA, rowA] else []).take limit

/-- A page function whose single page holds two distinct contracts. -/
def twoPages : Nat → Nat → List RawRow :=
  fun offset limit => (if offset = 0 then [rowA, rowB] else []).take limit

/-! ## dashboard/app.py -/

/-- One row of `risk_scores.parquet` as the dashboard reads it, restricted
to the fields the two filter paths touch.  `sector` and `departamento` may
be missing (the sidebar builds its options with `dropna()`). -/
structure ScoredRow where
  id_contrato : String
  codigo_entidad : String
  codigo_proveedor : String
  valor_del_contrato : ℚ
  year : Int
  sector : Option String
  departamento : Option String
  risk_tier : String
  risk_score_calibrated : ℚ
deriving DecidableEq, Repr

/-- `Series.isin(values)` on a possibly-missing string cell: a missing cell
is never in a list of selected strings. -/
def isinOpt (o : Option String) (l : List String) : Bool :=
  match o with
  | some v => l.contains v
  | none => false

/-- Substring containment, modelling `Series.str.contains` on the plain
(non-regex-metacharacter) patterns typed into the two search boxes. -/
def strContains (s pat : String) : Bool :=
  (List.range (s.toList.length + 1)).any
    (fun i => pat.toList.isPrefixOf (s.toList.drop i))

/-- `apply_filters` from `dashboard/app.py`: restrict to the year range
(`Series.between`, inclusive on both ends), then — each only when the
corresponding selection list is non-empty, as Python's `if tiers:` etc.
test — to the selected tiers, sectors and departments, in that order. -/
def apply_filters (df : List ScoredRow) (years : Int × Int)
    (sectors tiers depts : List String) : List ScoredRow :=
  let out := df.filter
    (fun r => decide (years.1 ≤ r.year) && decide (r.year ≤ years.2))
  let out := if tiers.isEmpty then out
    else out.filter (fun r => tiers.contains r.risk_tier)
  let out := if sectors.isEmpty then out
    else out.filter (fun r => isinOpt r.sector sectors)
  let out := if depts.isEmpty then out
    else out.filter (fun r => isinOpt r.departamento depts)
  out

/-- The boolean mask built in tab 3 (Contract Explorer) of
`dashboard/app.py`, per row: year range, then conditionally tiers, sectors,
departments (when the selections are non-empty), the two stripped search
strings (when non-empty, via `str.contains`), and the minimum risk score
(when strictly positive). -/
def explorerMask (years : Int × Int) (sectors tiers depts : List String)
    (searchVendor searchAgency : String) (minRisk : ℚ) (r : ScoredRow) :
    Bool :=
  (decide (years.1 ≤ r.year) && decide (r.year ≤ years.2))
    && (if tiers.isEmpty then true else tiers.contains r.risk_tier)
    && (if sectors.isEmpty then true else isinOpt r.sector sectors)
    && (if depts.isEmpty then true else isinOpt r.departamento depts)
    && (if stripStr searchVendor = "" then true
      else strContains r.codigo_proveedor (stripStr searchVendor))
    && (if stripStr searchAgency = "" then true
      else strContains r.codigo_entidad (stripStr searchAgency))
    && (if 0 < minRisk then decide (minRisk ≤ r.risk_score_calibrated)
      else true)

/-- Every column of the contracts table (`risk_scores.parquet`) that
`dashboard/app.py` reads: in `load_contracts`, the sidebar option lists,
`apply_filters`, the tab-1 metrics and charts, the tab-2 drill-down
(including `monthly_risk` grouping on the start date) and the tab-3
explorer (`mask` and `display_cols`). -/
def riskScoresColumnsRead : List String :=
  ["fecha_de_inicio_del_contrato", "year", "sector", "departamento",
   "risk_tier", "valor_del_contrato", "is_direct", "id_contrato",
   "codigo_entidad", "codigo_proveedor", "risk_score_calibrated",
   "process_anomaly_score", "splitting_score", "network_score",
   "is_modified"]

/-- From the spec (§6, output consumer): the per-contract output table's
promised fields — id, the three sub-scores, composite score, tier, and the
dimensional columns year, sector, department, agency id, vendor id, value,
is_direct, is_modified — under the column names the dashboard uses. -/
def specContractSchemaColumns : List String :=
  ["id_contrato", "process_anomaly_score", "splitting_score",
   "network_score", "risk_score_calibrated", "risk_tier", "year", "sector",
   "departamento", "codigo_entidad", "codigo_proveedor",
   "valor_del_contrato", "is_direct", "is_modified"]

/-! ## The scoring pipeline (spec-modelled) -/

/-- The weighted combination of §4.5 step 1:
raw = 0.55 process_anomaly + 0.25 splitting + 0.10 network +
0.10 community, with the configured weights of `config/settings.py`. -/
def compositeRaw (p s n c : ℚ) : ℚ :=
  WEIGHT_PROCESS_ANOMALY * p + WEIGHT_SPLITTING * s + WEIGHT_NETWORK * n +
    WEIGHT_COMMUNITY * c

/-- Modelled from the spec: the scoring pipeline (feature building, the
three sub-score detectors, the community signal, calibration) is not under
`src/` — only its configuration is.  Per §4.2 and §4.5, every stochastic
component is driven by the fixed random seed, so each stage is a
mathematical function of the input population and the seed; `anomaly`,
`splitting`, `network` and `community` give each contract's sub-scores,
`calibrate` is the mapping fitted once per run.  The pipeline combines
them with `compositeRaw`, calibrates, and tiers with `risk_tier`. -/
def runPipeline
    (anomaly splitting network community : List ParsedRow → Nat → Nat → ℚ)
    (calibrate : List ParsedRow → Nat → ℚ → ℚ)
    (contracts : List ParsedRow) (seed : Nat) : List (ℚ × RiskTier) :=
  (List.range contracts.length).map (fun i =>
    let raw := compositeRaw (anomaly contracts seed i)
      (splitting contracts seed i) (network contracts seed i)
      (community contracts seed i)
    let cal := calibrate contracts seed raw
    (cal, risk_tier cal))

end AuditLens

namespace AuditLens

/-! ## Theorems about the configuration -/

/-- C1: the four combination weights equal 0.55, 0.25, 0.10 and 0.10
respectively, and their sum equals 1.0 to within 1e-9. -/
theorem weights_declared_and_sum_to_one :
    WEIGHT_PROCESS_ANOMALY = 55 / 100 ∧
    WEIGHT_SPLITTING = 25 / 100 ∧
    WEIGHT_NETWORK = 10 / 100 ∧
    WEIGHT_COMMUNITY = 10 / 100 ∧
    |WEIGHT_PROCESS_ANOMALY + WEIGHT_SPLITTING + WEIGHT_NETWORK +
      WEIGHT_COMMUNITY - 1| ≤ 1 / 1000000000 := by
  refine ⟨?_, ?_, ?_, ?_, ?_⟩ <;>
    norm_num [WEIGHT_PROCESS_ANOMALY, WEIGHT_SPLITTING, WEIGHT_NETWORK,
      WEIGHT_COMMUNITY]

/-- C5: the tier cut points are the two ordered values 0.3 < 0.6, and
`risk_tier` is a pure function of the calibrated score under these fixed
cut points: High on the high band, Medium on the middle band, Low below. -/
theorem tier_cut_points_and_tiering :
    TIER_LOW = 3 / 10 ∧ TIER_HIGH = 6 / 10 ∧ TIER_LOW < TIER_HIGH ∧
    ∀ s : ℚ,
      (TIER_HIGH ≤ s → risk_tier s = RiskTier.High) ∧
      (TIER_LOW ≤ s → s < TIER_HIGH → risk_tier s = RiskTier.Medium) ∧
      (s < TIER_LOW → risk_tier s = RiskTier.Low) := by
  refine ⟨by norm_num [TIER_LOW], by norm_num [TIER_HIGH],
    by norm_num [TIER_LOW, TIER_HIGH], ?_⟩
  intro s
  refine ⟨fun h => ?_, fun h1 h2 => ?_, fun h => ?_⟩
  · simp [risk_tier, h]
  · simp [risk_tier, h1, not_le.mpr h2]
  · have h2 : ¬ TIER_HIGH ≤ s := by
      rw [not_le]
      calc s < TIER_LOW := h
        _ < TIER_HIGH := by norm_num [TIER_LOW, TIER_HIGH]
    simp [risk_tier, h2, not_le.mpr h]

/-- Witness for C5: the tiering function evaluated on one score in each band. -/
theorem tier_cut_points_and_tiering_witness :
    risk_tier (7 / 10) = RiskTier.High ∧
    risk_tier (4 / 10) = RiskTier.Medium ∧
    risk_tier (1 / 10) = RiskTier.Low :=
  ⟨(tier_cut_points_and_tiering.2.2.2 (7 / 10)).1 (by norm_num [TIER_HIGH]),
   ((tier_cut_points_and_tiering.2.2.2 (4 / 10)).2.1 (by norm_num [TIER_LOW])
     (by norm_num [TIER_HIGH])),
   (tier_cut_points_and_tiering.2.2.2 (1 / 10)).2.2 (by norm_num [TIER_LOW])⟩

/-- C2: every row returned by `clean_dataframe` has a non-null contract
value, a non-null start date, and a contract value strictly greater than 0,
for every input dataframe and every (pandas-style coercing) parser pair. -/
theorem clean_dataframe_rows_valid
    (toNum : String → Option ℚ) (toDate : String → Option Date)
    (df : List RawRow) (r : ParsedRow)
    (hr : r ∈ clean_dataframe toNum toDate df) :
    r.valor_del_contrato.isSome ∧
    r.fecha_de_inicio_del_contrato.isSome ∧
    0 < r.valor_del_contrato.getD 0 := by
  simp only [clean_dataframe, List.mem_filter, List.mem_map,
    Bool.and_eq_true, decide_eq_true_eq] at hr
  exact ⟨hr.1.2.1, hr.1.2.2, hr.2⟩

/-- Witness for C2: a concrete cleaned row is kept and satisfies the
guarantee. -/
theorem clean_dataframe_rows_valid_witness :
    parseRow parseNum parseDate
        ⟨"A1", "5000", "0", "2020-01-01", "2020-01-03", "2020-02-01"⟩ ∈
      clean_dataframe parseNum parseDate
        [⟨"A1", "5000", "0", "2020-01-01", "2020-01-03", "2020-02-01"⟩] ∧
    ((parseRow parseNum parseDate
        ⟨"A1", "5000", "0", "2020-01-01", "2020-01-03", "2020-02-01"⟩).valor_del_contrato.isSome ∧
      (parseRow parseNum parseDate
        ⟨"A1", "5000", "0", "2020-01-01", "2020-01-03", "2020-02-01"⟩).fecha_de_inicio_del_contrato.isSome ∧
      0 < (parseRow parseNum parseDate
        ⟨"A1", "5000", "0", "2020-01-01", "2020-01-03", "2020-02-01"⟩).valor_del_contrato.getD 0) :=
  ⟨by decide,
    clean_dataframe_rows_valid parseNum parseDate
      [⟨"A1", "5000", "0", "2020-01-01", "2020-01-03", "2020-02-01"⟩]
      (parseRow parseNum parseDate
        ⟨"A1", "5000", "0", "2020-01-01", "2020-01-03", "2020-02-01"⟩)
      (by decide)⟩

/-- C4: any start date admitted by the API-side date constraint of
`fetch_page` (the interval from `TRAIN_START` to `VALID_END`) has its year
in the `SMMLV` threshold table, so the MissingThresholdYear condition is
unreachable for ingested data. -/
theorem ingested_year_in_smmlv (d : Date) (h : fetchWhereDate d = true) :
    ((SMMLV.map Prod.fst).contains d.year) = true := by
  have h1 : (parseDate TRAIN_START).getD ⟨0, 0, 0⟩ = (⟨2019, 1, 1⟩ : Date) := by
    decide
  have h2 : (parseDate VALID_END).getD ⟨0, 0, 0⟩ = (⟨2022, 8, 6⟩ : Date) := by
    decide
  rw [fetchWhereDate, h1, h2] at h
  simp only [dateLe, Bool.and_eq_true, Bool.or_eq_true, decide_eq_true_eq] at h
  obtain ⟨ha, hb⟩ := h
  have hy1 : 2019 ≤ d.year := by rcases ha with h | ⟨h, -⟩ <;> omega
  have hy2 : d.year ≤ 2022 := by rcases hb with h | ⟨h, -⟩ <;> omega
  have hy : d.year = 2019 ∨ d.year = 2020 ∨ d.year = 2021 ∨ d.year = 2022 := by
    omega
  rcases hy with h | h | h | h <;> rw [h] <;> decide

/-- Witness for C4: a concrete in-window date whose year is in the table. -/
theorem ingested_year_in_smmlv_witness :
    fetchWhereDate ⟨2020, 5, 3⟩ = true ∧
    ((SMMLV.map Prod.fst).contains (Date.mk 2020 5 3).year) = true :=
  ⟨by decide, ingested_year_in_smmlv ⟨2020, 5, 3⟩ (by decide)⟩

/-- Cleaning only drops rows, so it cannot grow the dataframe. -/
theorem clean_dataframe_length_le (toNum : String → Option ℚ)
    (toDate : String → Option Date) (df : List RawRow) :
    (clean_dataframe toNum toDate df).length ≤ df.length := by
  calc (clean_dataframe toNum toDate df).length
      ≤ ((df.map (parseRow toNum toDate)).filter
          (fun r => r.valor_del_contrato.isSome &&
            r.fecha_de_inicio_del_contrato.isSome)).length :=
        List.length_filter_le _ _
    _ ≤ (df.map (parseRow toNum toDate)).length := List.length_filter_le _ _
    _ = df.length := List.length_map _ _

/-- The cleaned rows' ids form a sublist of the input rows'
whitespace-stripped ids. -/
theorem clean_dataframe_ids_sublist (toNum : String → Option ℚ)
    (toDate : String → Option Date) (df : List RawRow) :
    List.Sublist ((clean_dataframe toNum toDate df).map ParsedRow.id_contrato)
      (df.map (fun r => stripStr r.id_contrato)) := by
  have h1 : List.Sublist (clean_dataframe toNum toDate df)
      (df.map (parseRow toNum toDate)) :=
    ((List.filter_sublist _).trans (List.filter_sublist _))
  have h2 := h1.map ParsedRow.id_contrato
  rwa [List.map_map] at h2

/-- The fetch-loop invariant: when `max_rows` is set, `total_fetched`
never exceeds it, and the accumulated rows grow in lockstep with
`total_fetched`, provided each page returns at most the requested limit. -/
theorem pullLoop_invariant (pages : Nat → Nat → List RawRow) (m : Nat)
    (hpages : ∀ o l, (pages o l).length ≤ l) :
    ∀ fuel offset total acc, total ≤ m →
      (pullLoop pages (some m) fuel offset total acc).2 ≤ m ∧
      (pullLoop pages (some m) fuel offset total acc).1.length + total =
        acc.length + (pullLoop pages (some m) fuel offset total acc).2 := by
  intro fuel
  induction fuel with
  | zero =>
    intro offset total acc htot
    exact ⟨htot, rfl⟩
  | succ n ih =>
    intro offset total acc htot
    simp only [pullLoop]
    by_cases h0 : min (API_PAGE_SIZE : Int) ((m : Int) - (total : Int)) ≤ 0
    · simp only [h0, if_true]
      exact ⟨htot, by simp⟩
    · simp only [h0, if_false]
      have hpos : 0 < min (API_PAGE_SIZE : Int) ((m : Int) - (total : Int)) :=
        lt_of_not_le h0
      set limit : Int := min (API_PAGE_SIZE : Int) ((m : Int) - (total : Int))
        with hlimdef
      have hle : limit ≤ (m : Int) - (total : Int) := min_le_right _ _
      have hcast : (limit.toNat : Int) = limit := Int.toNat_of_nonneg hpos.le
      have hlimle : limit.toNat + total ≤ m := by omega
      by_cases hb : pages offset limit.toNat = []
      · simp only [hb, if_true]
        exact ⟨htot, by simp⟩
      · simp only [hb, if_false]
        have hlen : (pages offset limit.toNat).length ≤ limit.toNat :=
          hpages _ _
        have htot2 : total + (pages offset limit.toNat).length ≤ m := by omega
        by_cases hsmall : (pages offset limit.toNat).length < limit.toNat
        · simp only [hsmall, if_true]
          refine ⟨htot2, ?_⟩
          simp only [List.length_append]
          omega
        · simp only [hsmall, if_false]
          obtain ⟨ihl, ihr⟩ := ih (offset + (pages offset limit.toNat).length)
            (total + (pages offset limit.toNat).length)
            (acc ++ pages offset limit.toNat) htot2
          refine ⟨ihl, ?_⟩
          simp only [List.length_append] at ihr ⊢
          omega

/-- C10: with `max_rows` set to a positive `m` and each page returning at
most the requested limit, the loop's final `total_fetched` is at most `m`,
and any dataframe `pull_data` saves has at most `m` rows. -/
theorem pull_data_respects_max_rows (pages : Nat → Nat → List RawRow)
    (toNum : String → Option ℚ) (toDate : String → Option Date)
    (m fuel : Nat) (hm : 0 < m)
    (hpages : ∀ o l, (pages o l).length ≤ l) :
    (pullLoop pages (some m) fuel 0 0 []).2 ≤ m ∧
    ((pull_data pages toNum toDate (some m) fuel).getD []).length ≤ m := by
  obtain ⟨h1, h2⟩ :=
    pullLoop_invariant pages m hpages fuel 0 0 [] (Nat.zero_le m)
  refine ⟨h1, ?_⟩
  have hrows : (pullLoop pages (some m) fuel 0 0 []).1.length ≤ m := by
    simpa using h2.le.trans (by simpa using h1)
  unfold pull_data
  by_cases hempty : (pullLoop pages (some m) fuel 0 0 []).1 = []
  · simp [hempty]
  · simp only [hempty, if_false, Option.getD_some]
    exact (clean_dataframe_length_le toNum toDate _).trans hrows

/-- Witness for C10: a concrete run with `max_rows = 1` fetches and saves
at most one row. -/
theorem pull_data_respects_max_rows_witness :
    0 < 1 ∧ (∀ o l, (twoPages o l).length ≤ l) ∧
    ((pullLoop twoPages (some 1) 5 0 0 []).2 ≤ 1 ∧
      ((pull_data twoPages parseNum parseDate (some 1) 5).getD []).length ≤ 1) :=
  ⟨Nat.zero_lt_one, fun o l => by
      unfold twoPages
      exact (List.length_take _ _).le.trans (min_le_left _ _),
    pull_data_respects_max_rows twoPages parseNum parseDate 1 5 Nat.zero_lt_one
      (fun o l => by
        unfold twoPages
        exact (List.length_take _ _).le.trans (min_le_left _ _))⟩

/-- C3 counterexample: with a page that returns the same contract record
twice, `pull_data` saves a dataframe whose `id_contrato` values are not
pairwise distinct — nothing in the client deduplicates. -/
theorem pull_data_duplicate_ids :
    pull_data dupPages parseNum parseDate none 5 ≠ none ∧
    ¬ (((pull_data dupPages parseNum parseDate none 5).getD []).map
        ParsedRow.id_contrato).Nodup := by
  constructor
  · decide
  · decide

/-- C3 amended: the saved dataset's `id_contrato` values are pairwise
distinct whenever the fetched rows' (whitespace-stripped) ids already are:
cleaning only drops rows and never duplicates them, but the client performs
no deduplication of what the pages return. -/
theorem pull_data_nodup_amended (pages : Nat → Nat → List RawRow)
    (toNum : String → Option ℚ) (toDate : String → Option Date)
    (maxRows : Option Nat) (fuel : Nat)
    (h : ((pullLoop pages maxRows fuel 0 0 []).1.map
        (fun r => stripStr r.id_contrato)).Nodup) :
    (((pull_data pages toNum toDate maxRows fuel).getD []).map
      ParsedRow.id_contrato).Nodup := by
  unfold pull_data
  by_cases hempty : (pullLoop pages maxRows fuel 0 0 []).1 = []
  · simp [hempty]
  · simp only [hempty, if_false, Option.getD_some]
    exact h.sublist (clean_dataframe_ids_sublist toNum toDate _)

/-- Witness for C3 amended: a duplicate-free fetched page yields
duplicate-free saved ids. -/
theorem pull_data_nodup_amended_witness :
    ((pullLoop twoPages none 5 0 0 []).1.map
        (fun r => stripStr r.id_contrato)).Nodup ∧
    (((pull_data twoPages parseNum parseDate none 5).getD []).map
      ParsedRow.id_contrato).Nodup :=
  ⟨by decide, pull_data_nodup_amended twoPages parseNum parseDate none 5
    (by decide)⟩

/-- C6 counterexample: the dashboard reads the contract start date column
from `risk_scores.parquet`, and that column is not among the fields the §6
per-contract schema contract promises. -/
theorem dashboard_reads_start_date_not_in_schema :
    "fecha_de_inicio_del_contrato" ∈ riskScoresColumnsRead ∧
    "fecha_de_inicio_del_contrato" ∉ specContractSchemaColumns := by
  constructor
  · decide
  · decide

/-- C6 amended: every column the dashboard reads from the per-contract
output table is one of the §6 schema fields, except for the contract start
date (`fecha_de_inicio_del_contrato`), which it additionally reads. -/
theorem dashboard_columns_in_schema_or_start_date
    (c : String) (hc : c ∈ riskScoresColumnsRead) :
    c ∈ specContractSchemaColumns ∨ c = "fecha_de_inicio_del_contrato" := by
  have h : ∀ x ∈ riskScoresColumnsRead,
      x ∈ specContractSchemaColumns ∨ x = "fecha_de_inicio_del_contrato" := by
    decide
  exact h c hc

/-- Witness for C6 amended: the `year` column is read and is in the
schema. -/
theorem dashboard_columns_in_schema_or_start_date_witness :
    "year" ∈ riskScoresColumnsRead ∧
    ("year" ∈ specContractSchemaColumns ∨
      "year" = "fecha_de_inicio_del_contrato") :=
  ⟨by decide, dashboard_columns_in_schema_or_start_date "year" (by decide)⟩

/-- C9: with an empty vendor search, an empty agency search and a zero
minimum risk score, the Contract Explorer's tab-3 mask selects exactly the
rows `apply_filters` keeps, for every dataframe and every selection of
years, sectors, tiers and departments. -/
theorem explorer_mask_matches_apply_filters
    (df : List ScoredRow) (years : Int × Int)
    (sectors tiers depts : List String) :
    df.filter (explorerMask years sectors tiers depts "" "" 0) =
      apply_filters df years sectors tiers depts := by
  have hs : stripStr "" = "" := by decide
  have h0 : ¬ ((0 : ℚ) < 0) := lt_irrefl 0
  unfold apply_filters
  by_cases ht : tiers.isEmpty <;> by_cases hsec : sectors.isEmpty <;>
    by_cases hd : depts.isEmpty <;>
    simp only [ht, hsec, hd, Bool.not_eq_true, if_true, if_false,
      Bool.false_eq_true, Bool.true_eq_false, ite_true, ite_false,
      List.filter_filter] <;>
    · refine List.filter_congr ?_
      intro r _
      simp [explorerMask, hs, h0, ht, hsec, hd, Bool.and_assoc,
        Bool.and_comm, Bool.and_left_comm]

/-- C8: two runs of the full scoring pipeline on identical input with the
identical fixed seed yield identical composite scores and risk tiers for
every contract: in the spec's model every stage is a function of the input
population and the seed, so the run is reproducible. -/
theorem pipeline_two_runs_identical
    (anomaly splitting network community :
      List ParsedRow → Nat → Nat → ℚ)
    (calibrate : List ParsedRow → Nat → ℚ → ℚ)
    (contracts : List ParsedRow) :
    runPipeline anomaly splitting network community calibrate contracts
        RANDOM_STATE =
      runPipeline anomaly splitting network community calibrate contracts
        RANDOM_STATE :=
  rfl

/-- C7: the splitting-detector configuration matches the declared values:
rolling windows of 30, 60 and 90 days and a 10% threshold-proximity
percentage. -/
theorem splitting_configuration_declared :
    SPLITTING_WINDOWS_DAYS = [30, 60, 90] ∧
    THRESHOLD_PROXIMITY_PCT = 10 / 100 := by
  constructor
  · rfl
  · norm_num [THRESHOLD_PROXIMITY_PCT]

end AuditLens
